import Mathlib

/-!
Verification development for the ODBC→MySQL batched migration engine
(`db_operations.py`).  The definitions below are a shallow embedding of the
functions `create_mysql_table_from_odbc_metadata`, `process_row`,
`insert_data_to_mysql`, `fetch_and_insert_rows` and `fetch_and_update_rows`;
Python values are modelled by the inductive `Db.Value`, per-column override
dictionaries by association lists of `Db.ExceptionCfg`, and Python exceptions
by `Except String`.
-/

set_option autoImplicit false

namespace Db

/-- A Python runtime value as it can appear in a fetched row or in a
normalized row: `None`, a string, a `datetime.datetime`, a `datetime.date`,
an integer, or any other object shape (floats, bytes, ...). -/
inductive Value where
  | none
  | str (s : String)
  | vdatetime (year month day hour minute second : Nat)
  | vdate (year month day : Nat)
  | int (n : Int)
  | other
deriving DecidableEq, Repr

/-- One per-column override entry (`exceptions[col_name]` in the source): the
keys `"type"`, `"format"`, `"length"` and `"key_length"` of the configuration
dictionary, each possibly absent. -/
structure ExceptionCfg where
  type : Option String := Option.none
  format : Option String := Option.none
  length : Option Nat := Option.none
  key_length : Option Nat := Option.none
deriving DecidableEq, Repr

/-- The `exceptions` dictionary: association list keyed by column name. -/
def Exceptions := List (String × ExceptionCfg)

instance : DecidableEq Exceptions := by
  unfold Exceptions
  infer_instance

/-- Python dictionary lookup `d[k]` / `d.get(k)` on an association list. -/
def dict_get (d : List (String × ExceptionCfg)) (k : String) : Option ExceptionCfg :=
  match d with
  | [] => Option.none
  | (k2, v) :: rest => if k2 = k then some v else dict_get rest k

/-- Python `str.strip()`: remove leading and trailing whitespace. -/
def py_strip (s : String) : String :=
  ⟨((s.data.dropWhile Char.isWhitespace).reverse.dropWhile Char.isWhitespace).reverse⟩

/-- Python `str.upper()` (ASCII, which is all the source feeds it). -/
def py_upper (s : String) : String :=
  ⟨s.data.map Char.toUpper⟩

/-- Python `str.endswith(suffix)`. -/
def py_endswith (s suffix2 : String) : Bool :=
  suffix2.data.isSuffixOf s.data

/-- Python `str.startswith(p)`. -/
def py_startswith (s p : String) : Bool :=
  p.data.isPrefixOf s.data

/-- Python `str.replace(c, r)` for a one-character pattern `c`: every
occurrence of the character is replaced (not only a trailing one). -/
def py_replace_char (s : String) (c : Char) (r : List Char) : String :=
  ⟨(s.data.map (fun ch => if ch = c then r else [ch])).flatten⟩

/-- Zero-padded two-digit decimal rendering, as `strftime` produces. -/
def pad2 (n : Nat) : String :=
  if n < 10 then "0" ++ toString n else toString n

/-- Zero-padded four-digit decimal rendering (for `%Y`). -/
def pad4 (n : Nat) : String :=
  if n < 10 then "000" ++ toString n
  else if n < 100 then "00" ++ toString n
  else if n < 1000 then "0" ++ toString n
  else toString n

/-- The result of `datetime.strptime`, reduced to the fields the migration
code ever reads (`datetime.strptime` defaults the date part to 1900-01-01). -/
structure PyDateTime where
  year : Nat
  month : Nat
  day : Nat
  hour : Nat
  minute : Nat
  second : Nat
deriving DecidableEq, Repr

/-- Field record accumulated while running a `strptime` format. -/
structure StFields where
  fI : Option Nat := Option.none
  fH : Option Nat := Option.none
  fM : Option Nat := Option.none
  fS : Option Nat := Option.none
  fp : Option Bool := Option.none
  fY : Option Nat := Option.none
  fmo : Option Nat := Option.none
  fd : Option Nat := Option.none
deriving DecidableEq, Repr

/-- One token of a `strptime` format string. -/
inductive FmtTok where
  | dI | dH | dM | dS | dP | dY | dMo | dD
  | pct
  | ws
  | lit (c : Char)
  | bad
deriving DecidableEq, Repr

/-- Map a directive character to its token (`bad` models the `ValueError`
CPython raises for an unsupported directive). -/
def dirTok (c : Char) : FmtTok :=
  if c = 'I' then FmtTok.dI
  else if c = 'H' then FmtTok.dH
  else if c = 'M' then FmtTok.dM
  else if c = 'S' then FmtTok.dS
  else if c = 'p' then FmtTok.dP
  else if c = 'Y' then FmtTok.dY
  else if c = 'm' then FmtTok.dMo
  else if c = 'd' then FmtTok.dD
  else if c = '%' then FmtTok.pct
  else FmtTok.bad

/-- Tokenize a format string: `%X` pairs become directives, whitespace becomes
a whitespace matcher, anything else a literal. -/
def tokenize : List Char → List FmtTok
  | [] => []
  | '%' :: c :: rest => dirTok c :: tokenize rest
  | ['%'] => [FmtTok.bad]
  | c :: rest => (if c.isWhitespace then FmtTok.ws else FmtTok.lit c) :: tokenize rest

/-- Parse one or two decimal digits whose value lies in `[lo, hi]`, exactly
like the alternation regexes CPython compiles for `%I`, `%H`, `%M`, `%S`,
`%m`, `%d` (two digits preferred, one digit accepted). -/
def parseNum (lo hi : Nat) : List Char → Option (Nat × List Char)
  | [] => Option.none
  | [c1] =>
    if c1.isDigit then
      let d1 := c1.toNat - 48
      if lo ≤ d1 ∧ d1 ≤ hi then some (d1, []) else Option.none
    else Option.none
  | c1 :: c2 :: rest =>
    if c1.isDigit then
      let d1 := c1.toNat - 48
      if c2.isDigit then
        let v := d1 * 10 + (c2.toNat - 48)
        if lo ≤ v ∧ v ≤ hi then some (v, rest)
        else if lo ≤ d1 ∧ d1 ≤ hi then some (d1, c2 :: rest)
        else Option.none
      else if lo ≤ d1 ∧ d1 ≤ hi then some (d1, c2 :: rest) else Option.none
    else Option.none

/-- Parse exactly four decimal digits (`%Y`). -/
def parse4 : List Char → Option (Nat × List Char)
  | a :: b :: c :: d :: rest =>
    if a.isDigit ∧ b.isDigit ∧ c.isDigit ∧ d.isDigit then
      some (((a.toNat - 48) * 10 + (b.toNat - 48)) * 100 +
              ((c.toNat - 48) * 10 + (d.toNat - 48)), rest)
    else Option.none
  | _ => Option.none

/-- Parse an `AM`/`PM` marker (`%p`), case-insensitively; `true` means PM. -/
def parseAmPm : List Char → Option (Bool × List Char)
  | a :: b :: rest =>
    if a.toUpper = 'A' ∧ b.toUpper = 'M' then some (false, rest)
    else if a.toUpper = 'P' ∧ b.toUpper = 'M' then some (true, rest)
    else Option.none
  | _ => Option.none

/-- Run a tokenized format against the input characters, requiring the whole
input to be consumed (CPython raises on unconverted trailing data). -/
def runFmt : List FmtTok → List Char → StFields → Option StFields
  | [], [], st => some st
  | [], _ :: _, _ => Option.none
  | FmtTok.dI :: toks, input, st =>
    match parseNum 1 12 input with
    | some (v, rest) => runFmt toks rest { st with fI := some v }
    | Option.none => Option.none
  | FmtTok.dH :: toks, input, st =>
    match parseNum 0 23 input with
    | some (v, rest) => runFmt toks rest { st with fH := some v }
    | Option.none => Option.none
  | FmtTok.dM :: toks, input, st =>
    match parseNum 0 59 input with
    | some (v, rest) => runFmt toks rest { st with fM := some v }
    | Option.none => Option.none
  | FmtTok.dS :: toks, input, st =>
    match parseNum 0 61 input with
    | some (v, rest) => runFmt toks rest { st with fS := some v }
    | Option.none => Option.none
  | FmtTok.dP :: toks, input, st =>
    match parseAmPm input with
    | some (v, rest) => runFmt toks rest { st with fp := some v }
    | Option.none => Option.none
  | FmtTok.dY :: toks, input, st =>
    match parse4 input with
    | some (v, rest) => runFmt toks rest { st with fY := some v }
    | Option.none => Option.none
  | FmtTok.dMo :: toks, input, st =>
    match parseNum 1 12 input with
    | some (v, rest) => runFmt toks rest { st with fmo := some v }
    | Option.none => Option.none
  | FmtTok.dD :: toks, input, st =>
    match parseNum 1 31 input with
    | some (v, rest) => runFmt toks rest { st with fd := some v }
    | Option.none => Option.none
  | FmtTok.pct :: toks, input, st =>
    match input with
    | '%' :: rest => runFmt toks rest st
    | _ => Option.none
  | FmtTok.ws :: toks, input, st =>
    match input with
    | [] => Option.none
    | c :: cs =>
      if c.isWhitespace then runFmt toks (cs.dropWhile Char.isWhitespace) st
      else Option.none
  | FmtTok.lit c :: toks, input, st =>
    match input with
    | [] => Option.none
    | d :: ds => if d.toLower = c.toLower then runFmt toks ds st else Option.none
  | FmtTok.bad :: _, _, _ => Option.none

/-- Gregorian leap-year test, as `datetime.date` validates. -/
def isLeap (y : Nat) : Bool :=
  (y % 4 = 0 && y % 100 ≠ 0) || y % 400 = 0

/-- Days in a month, as `datetime.date` validates. -/
def daysInMonth (y m : Nat) : Nat :=
  if m = 2 then (if isLeap y then 29 else 28)
  else if m = 4 ∨ m = 6 ∨ m = 9 ∨ m = 11 then 30
  else 31

/-- The hour computed by CPython from the matched fields: `%H` wins; with
`%I` and `%p` the 12-hour value is converted; bare `%I` is taken as-is. -/
def stHour (st : StFields) : Nat :=
  match st.fH with
  | some h => h
  | Option.none =>
    match st.fI with
    | Option.none => 0
    | some i =>
      match st.fp with
      | some true => if i = 12 then 12 else i + 12
      | some false => if i = 12 then 0 else i
      | Option.none => i

/-- `datetime.strptime(data, fmt)`, returning `none` where CPython raises
`ValueError` (no regex match, unconverted data, or an invalid resulting
datetime such as a day out of range for the month or a leap second). -/
def strptime (data fmt : String) : Option PyDateTime :=
  match runFmt (tokenize fmt.data) data.data {} with
  | Option.none => Option.none
  | some st =>
    let y := st.fY.getD 1900
    let mo := st.fmo.getD 1
    let d := st.fd.getD 1
    let sec := st.fS.getD 0
    if 1 ≤ y ∧ 1 ≤ mo ∧ mo ≤ 12 ∧ 1 ≤ d ∧ d ≤ daysInMonth y mo ∧ sec ≤ 59 then
      some ⟨y, mo, d, stHour st, st.fM.getD 0, sec⟩
    else Option.none

/-- `dt.strftime('%H:%M:%S')`. -/
def strftime_HMS (dt : PyDateTime) : String :=
  pad2 dt.hour ++ ":" ++ pad2 dt.minute ++ ":" ++ pad2 dt.second

/-- The TIME branch of `process_row` (source lines 444-467): blank/`None`
becomes `None`; a string is stripped, uppercased, `P`/`A` are replaced by
`PM`/`AM` when no AM/PM suffix is present, then parsed with the override
format (default `"%I:%M %p"`) and, on `ValueError`, re-parsed (after the
substitutions!) as strict `"%H:%M:%S"`; a `datetime` is reformatted; any
other shape becomes `None`. -/
def time_block (exception : ExceptionCfg) (value : Value) : Value :=
  let time_format := exception.format.getD "%I:%M %p"
  match value with
  | Value.none => Value.none
  | Value.str s =>
    if py_strip s = "" then Value.none
    else
      let v1 := py_upper (py_strip s)
      let v2 :=
        if !(py_endswith v1 "AM") && !(py_endswith v1 "PM") then
          py_replace_char (py_replace_char v1 'P' ['P', 'M']) 'A' ['A', 'M']
        else v1
      match strptime v2 time_format with
      | some dt => Value.str (strftime_HMS dt)
      | Option.none =>
        match strptime (py_strip v2) "%H:%M:%S" with
        | some dt => Value.str (strftime_HMS dt)
        | Option.none => Value.none
  | Value.vdatetime y mo d hh mm ss => Value.str (strftime_HMS ⟨y, mo, d, hh, mm, ss⟩)
  | _ => Value.none

/-- The DATE branch of `process_row` before its enclosing `except` (source
lines 470-489): blank/`None` becomes `None`; a string is parsed as
`"%Y-%m-%d"`, falling back to `"%m/%d/%Y"`, the fallback `ValueError`
escaping to the enclosing handler; on a `datetime` the call `value.date()`
truncates; on a `date` the same call raises `AttributeError` (Python `date`
objects have no `date` method); other shapes become `None`. -/
def date_block_body (value : Value) : Except String Value :=
  match value with
  | Value.none => Except.ok Value.none
  | Value.str s =>
    if py_strip s = "" then Except.ok Value.none
    else
      match strptime (py_strip s) "%Y-%m-%d" with
      | some dt => Except.ok (Value.vdate dt.year dt.month dt.day)
      | Option.none =>
        match strptime (py_strip s) "%m/%d/%Y" with
        | some dt => Except.ok (Value.vdate dt.year dt.month dt.day)
        | Option.none => Except.error "ValueError: unparseable date"
  | Value.vdatetime y mo d _ _ _ => Except.ok (Value.vdate y mo d)
  | Value.vdate _ _ _ => Except.error "AttributeError: date object has no attribute date"
  | _ => Except.ok Value.none

/-- The DATE branch of `process_row` with its enclosing `except Exception`
(source lines 487-489), which degrades any raised error to `None`. -/
def date_block (value : Value) : Value :=
  match date_block_body value with
  | Except.ok v => v
  | Except.error _ => Value.none

/-- The body of the per-column `try` of `process_row` (source lines 439-494):
the TIME block, then the DATE block, then the general trailing-space trim. -/
def process_column_body (exceptions : Option Exceptions) (trim_trailing_spaces : Bool)
    (col_name : String) (value0 : Value) : Except String Value :=
  let value1 :=
    match exceptions.bind (fun exc => dict_get exc col_name) with
    | some exception =>
      let vT := if exception.type = some "TIME" then time_block exception value0 else value0
      if exception.type = some "DATE" then date_block vT else vT
    | Option.none => value0
  let value2 :=
    if trim_trailing_spaces then
      match value1 with
      | Value.str s => Value.str (py_strip s)
      | v => v
    else value1
  Except.ok value2

/-- One column of `process_row`, including the per-column `except Exception`
(source lines 496-498) that degrades any escaping error to `None` and lets
normalization continue with the remaining columns. -/
def processColumn (exceptions : Option Exceptions) (trim_trailing_spaces : Bool)
    (col_name : String) (value : Value) : Value :=
  match process_column_body exceptions trim_trailing_spaces col_name value with
  | Except.ok v => v
  | Except.error _ => Value.none

/-- `process_row(row, columns, exceptions, trim_trailing_spaces)` (source
lines 430-502).  The indexing `row[idx]` happens outside the per-column
`try`, so a row shorter than the column list raises an uncaught `IndexError`,
modelled by `none`; otherwise each column is processed independently. -/
def process_row (row : List Value) (columns : List (String × String))
    (exceptions : Option Exceptions) (trim_trailing_spaces : Bool) : Option (List Value) :=
  if columns.length ≤ row.length then
    some ((columns.zip row).map
      (fun p => processColumn exceptions trim_trailing_spaces p.1.1 p.2))
  else Option.none

/-! ### Schema synthesis (`create_mysql_table_from_odbc_metadata`, lines 52-130) -/

/-- The `type_mapping` dictionary (source lines 56-65). -/
def type_mapping : String → Option String
  | "TEXT" => some "TEXT"
  | "STRING" => some "VARCHAR(255)"
  | "DATE" => some "DATE"
  | "TIME" => some "TIME"
  | "INT" => some "INT"
  | "FLOAT" => some "FLOAT"
  | "DECIMAL" => some "DECIMAL(10,2)"
  | "BOOLEAN" => some "TINYINT(1)"
  | _ => Option.none

/-- Python truthiness of an optional integer (`length` in `if ... and length:`
and in `length or 255`): absent or zero is falsy. -/
def nat_truthy : Option Nat → Bool
  | some n => decide (n ≠ 0)
  | Option.none => false

/-- Python `length or 255`. -/
def py_or_nat (o : Option Nat) (dflt : Nat) : Nat :=
  match o with
  | some n => if n = 0 then dflt else n
  | Option.none => dflt

/-- The per-column type before the key-length substitution (source lines
77-94): the override branch validates a recognized custom type (raising
`ValueError` otherwise), and the default branch maps the ODBC type through
`type_mapping` with `"TEXT"` as fallback.  `exceptions and col_name in
exceptions` is modelled by a successful lookup (an absent or empty dictionary
never yields one). -/
def resolved_base_type (exceptions : Option Exceptions) (col_name odbc_type : String) :
    Except String String :=
  match exceptions.bind (fun exc => dict_get exc col_name) with
  | some exception =>
    let custom_type := py_upper (exception.type.getD "")
    match type_mapping custom_type with
    | some mapped =>
      Except.ok
        (if py_startswith custom_type "VARCHAR" && nat_truthy exception.length then
          "VARCHAR(" ++ toString (exception.length.getD 0) ++ ")"
        else mapped)
    | Option.none =>
      if custom_type = "VARCHAR" then
        Except.ok ("VARCHAR(" ++ toString (py_or_nat exception.length 255) ++ ")")
      else
        Except.error ("Invalid MySQL type " ++ custom_type ++ " for column " ++
          col_name ++ " in exceptions.")
  | Option.none => Except.ok ((type_mapping (py_upper odbc_type)).getD "TEXT")

/-- The full per-column type resolution: base type, then the primary/unique
key substitution of source lines 96-100.  Note that line 99 calls
`exceptions.get(...)` unconditionally, so when `exceptions` is `None` and a
key column resolved to `TEXT` the code raises `AttributeError`. -/
def resolve_col_type (exceptions : Option Exceptions) (primary_key unique_keys : List String)
    (col_name odbc_type : String) : Except String String :=
  match resolved_base_type exceptions col_name odbc_type with
  | Except.error e => Except.error e
  | Except.ok col_type =>
    if col_name ∈ primary_key ∨ col_name ∈ unique_keys then
      if py_startswith col_type "TEXT" then
        match exceptions with
        | Option.none =>
          Except.error "AttributeError: NoneType object has no attribute get"
        | some exc =>
          let key_length := ((dict_get exc col_name).bind ExceptionCfg.key_length).getD 100
          Except.ok ("VARCHAR(" ++ toString key_length ++ ")")
      else Except.ok col_type
    else Except.ok col_type

/-- Resolve every column in order, stopping at the first raised error, as the
Python `for` loop does. -/
def map_or_error (f : String × String → Except String String) :
    List (String × String) → Except String (List String)
  | [] => Except.ok []
  | c :: rest =>
    match f c with
    | Except.error e => Except.error e
    | Except.ok v =>
      match map_or_error f rest with
      | Except.error e => Except.error e
      | Except.ok vs => Except.ok (v :: vs)

/-- The `column_definitions` list (source lines 70-116): resolved columns in
source order, the two audit columns, then the key clauses. -/
def column_definitions (columns : List (String × String))
    (primary_key unique_keys : List String) (exceptions : Option Exceptions) :
    Except String (List String) :=
  match map_or_error
      (fun col => match resolve_col_type exceptions primary_key unique_keys col.1 col.2 with
        | Except.error e => Except.error e
        | Except.ok ct => Except.ok ("`" ++ col.1 ++ "` " ++ ct)) columns with
  | Except.error e => Except.error e
  | Except.ok defs =>
    let defs := defs ++
      ["`created_at` DATETIME DEFAULT CURRENT_TIMESTAMP",
       "`updated_at` DATETIME DEFAULT CURRENT_TIMESTAMP ON UPDATE CURRENT_TIMESTAMP"]
    let defs := if primary_key.isEmpty then defs else defs ++
      ["PRIMARY KEY (" ++ String.intercalate ", " (primary_key.map (fun pk => "`" ++ pk ++ "`")) ++ ")"]
    let defs := if unique_keys.isEmpty then defs else defs ++
      ["UNIQUE KEY (" ++ String.intercalate ", " (unique_keys.map (fun uk => "`" ++ uk ++ "`")) ++ ")"]
    Except.ok defs

/-- The `CREATE TABLE IF NOT EXISTS` statement (source line 119), or the
error raised while building the column definitions. -/
def create_query (destination_table : String) (columns : List (String × String))
    (primary_key unique_keys : List String) (exceptions : Option Exceptions) :
    Except String String :=
  match column_definitions columns primary_key unique_keys exceptions with
  | Except.error e => Except.error e
  | Except.ok defs =>
    Except.ok ("CREATE TABLE IF NOT EXISTS `" ++ destination_table ++ "` (\n  " ++
      String.intercalate ", " defs ++ "\n)")

/-- `create_mysql_table_from_odbc_metadata` (source lines 52-130).  The DDL
execution is modelled by its outcome `exec_result`; a raised override error
propagates before the DDL is consulted, while an execution failure is logged
and swallowed (source lines 123-130), returning normally with `false`. -/
def create_mysql_table_from_odbc_metadata (exec_result : Except String Unit)
    (destination_table : String) (columns : List (String × String))
    (primary_key unique_keys : List String) (exceptions : Option Exceptions) :
    Except String Bool :=
  match create_query destination_table columns primary_key unique_keys exceptions with
  | Except.error e => Except.error e
  | Except.ok _q =>
    Except.ok (match exec_result with
      | Except.ok _ => true
      | Except.error _ => false)

/-- Whether an override names a recognized MySQL type (the condition under
which source line 91 does not raise). -/
def recognized_override (cfg : ExceptionCfg) : Bool :=
  (type_mapping (py_upper (cfg.type.getD ""))).isSome ||
    py_upper (cfg.type.getD "") == "VARCHAR"

/-! ### Batch loading (`insert_data_to_mysql`, lines 357-386, and the delta
upsert of `fetch_and_update_rows`, lines 274-280) -/

/-- A sink row, viewed as its value at each column name. -/
abbrev RowFun := String → Value

/-- The statement built by `insert_data_to_mysql` (source lines 362-369): a
single parameterized insert over all columns; when `primary_key` is non-empty
an `ON DUPLICATE KEY UPDATE` clause is appended that lists ONLY the
primary-key columns. -/
def insert_query (destination_table : String) (columns : List (String × String))
    (primary_key : List String) : String :=
  let column_names := String.intercalate ", " (columns.map (fun col => "`" ++ col.1 ++ "`"))
  let placeholders := String.intercalate ", " (columns.map (fun _ => "%s"))
  let base := "INSERT INTO `" ++ destination_table ++ "` (" ++ column_names ++
    ") VALUES (" ++ placeholders ++ ")"
  if primary_key.isEmpty then base
  else
    base ++ " ON DUPLICATE KEY UPDATE " ++
      String.intercalate ", "
        (primary_key.map (fun col => "`" ++ col ++ "`=VALUES(`" ++ col ++ "`)"))

/-- The columns named in the `ON DUPLICATE KEY UPDATE` clause of
`insert_data_to_mysql` (source line 368): exactly the primary-key columns. -/
def insert_update_cols (primary_key : List String) : List String :=
  primary_key

/-- The columns named in the `ON DUPLICATE KEY UPDATE` clause of the delta
upsert in `fetch_and_update_rows` (source lines 277-279): the
`update_columns` allow-list plus `updated_at`. -/
def delta_update_cols (update_columns : List String) : List String :=
  update_columns ++ ["updated_at"]

/-- MySQL `col=VALUES(col)` semantics on a conflicting row: each column in
the update list takes the incoming row's value, every other column keeps the
existing row's value. -/
def applyValues (update_cols : List String) (incoming old : RowFun) : RowFun :=
  fun c => if c ∈ update_cols then incoming c else old c

/-- Whether two rows collide on the key columns. -/
def row_conflicts (key_cols : List String) (a b : RowFun) : Bool :=
  decide (key_cols.map a = key_cols.map b)

/-- MySQL semantics of executing the parameterized upsert for one row:
on a key conflict the `ON DUPLICATE KEY UPDATE` list is applied to the
existing row, otherwise the row is inserted. -/
def upsert_row (key_cols update_cols : List String) (table : List RowFun) (r : RowFun) :
    List RowFun :=
  if table.any (fun t => row_conflicts key_cols t r) then
    table.map (fun t => if row_conflicts key_cols t r then applyValues update_cols r t else t)
  else table ++ [r]

/-- `cursor.executemany` of the upsert over a whole batch. -/
def load_batch (key_cols update_cols : List String) (table : List RowFun)
    (rows : List RowFun) : List RowFun :=
  rows.foldl (upsert_row key_cols update_cols) table

/-! ### The chunked fetch loop (`fetch_and_insert_rows`, lines 199-239; the
same `pyodbc.DataError` handling appears in `fetch_and_update_rows`,
lines 284-292) -/

/-- Outcome of one `cursor.fetchmany(chunk_size)` call: a chunk of raw rows
(empty meaning the stream is exhausted) or a raised `pyodbc.DataError`. -/
inductive FetchOutcome where
  | chunk (rows : List (List Value))
  | dataError
deriving DecidableEq, Repr

/-- The `while True` fetch loop: a `DataError` is logged and `continue`
re-enters the loop (the errored chunk contributes nothing), an empty chunk
breaks, and otherwise the per-row conversions that succeed are batched and
loaded.  Returns the list of loaded batches and the number of fetch errors
logged. -/
def fetch_loop (columns : List (String × String)) (exceptions : Option Exceptions)
    (trim_trailing_spaces : Bool) :
    List FetchOutcome → List (List (List Value)) × Nat
  | [] => ([], 0)
  | FetchOutcome.dataError :: rest =>
    let r := fetch_loop columns exceptions trim_trailing_spaces rest
    (r.1, r.2 + 1)
  | FetchOutcome.chunk [] :: _ => ([], 0)
  | FetchOutcome.chunk (row :: rows) :: rest =>
    let converted := (row :: rows).filterMap
      (fun r => process_row r columns exceptions trim_trailing_spaces)
    let r := fetch_loop columns exceptions trim_trailing_spaces rest
    (converted :: r.1, r.2)

/-- A fetch outcome that yields a non-empty chunk (the loop neither breaks
nor logs an error on it). -/
def live_chunk : FetchOutcome → Bool
  | FetchOutcome.chunk (_ :: _) => true
  | _ => false

/-! ### The differential source query (`fetch_and_update_rows`, lines
258-270) -/

/-- The `WHERE` filter built for the differential query: with a truthy
`since` and `sort_column` the filter is `sort_column IS NOT NULL AND
sort_column > look_back_date`; otherwise it is `sort_column IS NOT NULL`. -/
inductive SortFilter where
  | notNullAndAfter (look_back_date : String)
  | notNull
deriving DecidableEq, Repr

/-- Python truthiness of the `since` argument (days of lookback). -/
def since_truthy : Option Nat → Bool
  | some n => decide (n ≠ 0)
  | Option.none => false

/-- The `date_filter` selection of source lines 261-266. -/
def date_filter (since : Option Nat) (sort_column : String) (look_back_date : String) :
    SortFilter :=
  if since_truthy since && !(sort_column == "") then SortFilter.notNullAndAfter look_back_date
  else SortFilter.notNull

/-- SQL three-valued truth of `v IS NULL`. -/
def sql_value_is_null : Value → Bool
  | Value.none => true
  | _ => false

/-- SQL truth of `v > 'threshold'` for the sort column (NULL compares to
nothing; dates are compared through their ISO rendering). -/
def sql_greater_than (v : Value) (threshold : String) : Bool :=
  match v with
  | Value.none => false
  | Value.str s => decide (threshold < s)
  | Value.vdate y m d => decide (threshold < pad4 y ++ "-" ++ pad2 m ++ "-" ++ pad2 d)
  | Value.vdatetime y m d _ _ _ => decide (threshold < pad4 y ++ "-" ++ pad2 m ++ "-" ++ pad2 d)
  | Value.int _ => false
  | Value.other => false

/-- Whether the `WHERE` clause selects a row with the given sort-column
value. -/
def sql_selects : SortFilter → Value → Bool
  | SortFilter.notNull, v => !(sql_value_is_null v)
  | SortFilter.notNullAndAfter d, v => !(sql_value_is_null v) && sql_greater_than v d

/-- A source row: its sort-column value and its full payload. -/
structure SourceRow where
  sortValue : Value
  payload : List Value
deriving DecidableEq, Repr

/-- The rows the differential source query returns: exactly those the
`WHERE` clause selects (normalization is applied only to these). -/
def differential_source_rows (f : SortFilter) (src : List SourceRow) : List SourceRow :=
  src.filter (fun r => sql_selects f r.sortValue)

/-- The differential flow downstream of the query: each fetched row goes
through `process_row`. -/
def differential_normalized (f : SortFilter) (src : List SourceRow)
    (columns : List (String × String)) (exceptions : Option Exceptions)
    (trim_trailing_spaces : Bool) : List (Option (List Value)) :=
  (differential_source_rows f src).map
    (fun r => process_row r.payload columns exceptions trim_trailing_spaces)

/-! ### Claims -/

/-- A concrete two-column sink row used by the C1 analysis. -/
def c1_row (i : Int) (n : String) : RowFun :=
  fun c => if c = "id" then Value.int i else if c = "name" then Value.str n else Value.none

/-- Claim C1 (counterexample): the full/append-copy upsert of
`insert_data_to_mysql` does NOT overwrite non-key columns on a key conflict.
The generated clause lists only the primary-key columns (`id`=VALUES(`id`)),
so loading the same key twice keeps the FIRST invocation's `name` value `"A"`
rather than the second invocation's `"B"` as the claim states. -/
theorem C1_counterexample :
    insert_query "employees" [("id", "INT"), ("name", "TEXT")] ["id"] =
      "INSERT INTO `employees` (`id`, `name`) VALUES (%s, %s) ON DUPLICATE KEY UPDATE `id`=VALUES(`id`)"
    ∧ (load_batch ["id"] (insert_update_cols ["id"])
        (load_batch ["id"] (insert_update_cols ["id"]) [] [c1_row 1 "A"])
        [c1_row 1 "B"]).map (fun t => t "name") = [Value.str "A"]
    ∧ [Value.str "A"] ≠ [Value.str "B"] := by
  refine ⟨rfl, rfl, by decide⟩

/-- Claim C5: for a TIME-overridden column, `"2:30 PM"` normalizes to
`"14:30:00"`; `"14:30:00"` is kept as `"14:30:00"` by the 24-hour retry; a
trailing bare `"P"`/`"A"` is completed to `"PM"`/`"AM"` before the 12-hour
parse; and a string failing both parses is emitted as null. -/
theorem C5_time_normalization :
    process_row [Value.str "2:30 PM"] [("shift_start", "TIME")]
        (some [("shift_start", { type := some "TIME" })]) false =
      some [Value.str "14:30:00"]
    ∧ process_row [Value.str "14:30:00"] [("shift_start", "TIME")]
        (some [("shift_start", { type := some "TIME" })]) false =
      some [Value.str "14:30:00"]
    ∧ process_row [Value.str "2:30 P"] [("shift_start", "TIME")]
        (some [("shift_start", { type := some "TIME" })]) false =
      some [Value.str "14:30:00"]
    ∧ process_row [Value.str "9:05 A"] [("shift_start", "TIME")]
        (some [("shift_start", { type := some "TIME" })]) false =
      some [Value.str "09:05:00"]
    ∧ process_row [Value.str "not a time"] [("shift_start", "TIME")]
        (some [("shift_start", { type := some "TIME" })]) false =
      some [Value.none] := by
  decide

/-- Claim C6: for a DATE-overridden column, `"2024-03-05"` (ISO, tried
first) and `"03/05/2024"` (MM/DD/YYYY fallback) normalize to the same date
value, and a string failing both parses normalizes to null with no exception
escaping the normalizer. -/
theorem C6_date_normalization :
    process_row [Value.str "2024-03-05"] [("hire_date", "DATE")]
        (some [("hire_date", { type := some "DATE" })]) false =
      some [Value.vdate 2024 3 5]
    ∧ process_row [Value.str "03/05/2024"] [("hire_date", "DATE")]
        (some [("hire_date", { type := some "DATE" })]) false =
      some [Value.vdate 2024 3 5]
    ∧ process_row [Value.str "March 5, 2024"] [("hire_date", "DATE")]
        (some [("hire_date", { type := some "DATE" })]) false =
      some [Value.none] := by
  decide

/-- Claim C10 (code bug): re-normalization is NOT the identity on
`process_row`'s own output.  The first pass turns a DATE-overridden string
into a `date` object; the second pass (which `insert_data_to_mysql` performs
on rows already processed by `fetch_and_insert_rows`) hits `value.date()` on
that `date` object, which raises `AttributeError` and is degraded to null by
the DATE block's handler — so the value finally loaded is null, not the
singly-normalized date. -/
theorem C10_date_renormalization_bug :
    process_row [Value.str "2024-03-05"] [("hire_date", "DATE")]
        (some [("hire_date", { type := some "DATE" })]) false =
      some [Value.vdate 2024 3 5]
    ∧ process_row [Value.vdate 2024 3 5] [("hire_date", "DATE")]
        (some [("hire_date", { type := some "DATE" })]) false =
      some [Value.none]
    ∧ (some [Value.none] : Option (List Value)) ≠ some [Value.vdate 2024 3 5] := by
  decide

/-- Claim C8 (counterexample): with no override dictionary at all
(`exceptions=None`), a primary-key column whose resolved type is unbounded
`TEXT` does not get the bounded `VARCHAR(100)` substitution — line 99 calls
`exceptions.get` on `None`, raising `AttributeError` and aborting table
creation instead. -/
theorem C8_counterexample :
    resolve_col_type Option.none ["id"] [] "id" "TEXT" =
      Except.error "AttributeError: NoneType object has no attribute get"
    ∧ (resolve_col_type Option.none ["id"] [] "id" "TEXT").isOk = false := by
  exact ⟨rfl, rfl⟩

/-- Claim C2: `process_row` is total on aligned rows — for any row of the
same arity as the column list (whatever the values are) it returns a tuple of
that arity, each column processed independently by the per-column handler
(whose `except Exception` degrades any failure to null and moves on). -/
theorem C2_normalize_total (row : List Value) (columns : List (String × String))
    (exceptions : Option Exceptions) (trim : Bool)
    (h : row.length = columns.length) :
    process_row row columns exceptions trim =
      some ((columns.zip row).map (fun p => processColumn exceptions trim p.1.1 p.2))
    ∧ ((columns.zip row).map (fun p => processColumn exceptions trim p.1.1 p.2)).length =
      columns.length := by
  constructor
  · unfold process_row
    rw [if_pos (by omega)]
  · simp [List.length_zip, h]

/-- Witness for C2 at a concrete malformed row: an unparseable TIME string
and a wrong-shaped DATE value both normalize to null, and the row keeps its
arity. -/
theorem C2_normalize_total_witness :
    (process_row [Value.str "not a time", Value.other]
        [("t", "TIME"), ("d", "DATE")]
        (some [("t", { type := some "TIME" }), ("d", { type := some "DATE" })]) true =
      some (([(("t" : String), ("TIME" : String)), ("d", "DATE")].zip
          [Value.str "not a time", Value.other]).map
        (fun p => processColumn
          (some [("t", { type := some "TIME" }), ("d", { type := some "DATE" })]) true
          p.1.1 p.2))
    ∧ (([(("t" : String), ("TIME" : String)), ("d", "DATE")].zip
          [Value.str "not a time", Value.other]).map
        (fun p => processColumn
          (some [("t", { type := some "TIME" }), ("d", { type := some "DATE" })]) true
          p.1.1 p.2)).length = 2)
    ∧ process_row [Value.str "not a time", Value.other]
        [("t", "TIME"), ("d", "DATE")]
        (some [("t", { type := some "TIME" }), ("d", { type := some "DATE" })]) true =
      some [Value.none, Value.none] := by
  refine ⟨C2_normalize_total _ _ _ _ (by decide), by decide⟩

/-- Claim C3: a `pyodbc.DataError` raised by one `fetchmany` call is logged
(the error count grows by one) and contributes no batch; the loop goes on to
fetch and load the remaining chunks exactly as it would have without the
error. -/
theorem C3_transient_fetch_error_skipped (columns : List (String × String))
    (exceptions : Option Exceptions) (trim : Bool) (pre post : List FetchOutcome)
    (hpre : pre.all live_chunk = true) :
    (fetch_loop columns exceptions trim (pre ++ FetchOutcome.dataError :: post)).1 =
      (fetch_loop columns exceptions trim (pre ++ post)).1
    ∧ (fetch_loop columns exceptions trim (pre ++ FetchOutcome.dataError :: post)).2 =
      (fetch_loop columns exceptions trim (pre ++ post)).2 + 1 := by
  induction pre with
  | nil =>
    exact ⟨by simp [fetch_loop], by simp [fetch_loop]⟩
  | cons o pre ih =>
    have ho : live_chunk o = true := by
      have := List.all_eq_true.mp hpre o (by simp)
      simpa using this
    have hpre' : pre.all live_chunk = true := by
      rw [List.all_eq_true]
      intro x hx
      exact List.all_eq_true.mp hpre x (by simp [hx])
    obtain ⟨ih1, ih2⟩ := ih hpre'
    cases o with
    | dataError => simp [live_chunk] at ho
    | chunk rows =>
      cases rows with
      | nil => simp [live_chunk] at ho
      | cons r rs =>
        constructor
        · simp only [List.cons_append, fetch_loop]
          exact congrArg _ ih1
        · simp only [List.cons_append, fetch_loop]
          exact ih2

/-- Witness for C3: batch 2 of 3 raises a transient `DataError`; batches 1
and 3 still load, the errored chunk contributes zero rows, and exactly one
more error is logged. -/
theorem C3_transient_fetch_error_skipped_witness :
    (fetch_loop [("id", "INT")] Option.none false
        ([FetchOutcome.chunk [[Value.int 1], [Value.int 2]]] ++
          FetchOutcome.dataError ::
            [FetchOutcome.chunk [[Value.int 3]], FetchOutcome.chunk []])).1 =
      (fetch_loop [("id", "INT")] Option.none false
        ([FetchOutcome.chunk [[Value.int 1], [Value.int 2]]] ++
          [FetchOutcome.chunk [[Value.int 3]], FetchOutcome.chunk []])).1
    ∧ (fetch_loop [("id", "INT")] Option.none false
        ([FetchOutcome.chunk [[Value.int 1], [Value.int 2]]] ++
          FetchOutcome.dataError ::
            [FetchOutcome.chunk [[Value.int 3]], FetchOutcome.chunk []])).2 =
      (fetch_loop [("id", "INT")] Option.none false
        ([FetchOutcome.chunk [[Value.int 1], [Value.int 2]]] ++
          [FetchOutcome.chunk [[Value.int 3]], FetchOutcome.chunk []])).2 + 1 :=
  C3_transient_fetch_error_skipped [("id", "INT")] Option.none false _ _ (by decide)

/-- Build a concrete sink row from an association list (used by witnesses). -/
def row_of : List (String × Value) → RowFun
  | [], _ => Value.none
  | (k, v) :: rest, c => if k = c then v else row_of rest c

/-- Claim C1 (amended): on a key conflict the full/append-copy upsert of
`insert_data_to_mysql` updates only the primary-key columns (each to its own
incoming value, a no-op), so every non-key column of the existing row keeps
the value of the FIRST load, and no new row is added for an existing key. -/
theorem C1_amended_first_load_wins (pk : List String) (table : List RowFun) (r : RowFun)
    (c : String) (hc : c ∉ pk)
    (hk : table.any (fun t => row_conflicts pk t r) = true) :
    ((upsert_row pk (insert_update_cols pk) table r).map (fun t => t c) =
      table.map (fun t => t c))
    ∧ (upsert_row pk (insert_update_cols pk) table r).length = table.length := by
  unfold upsert_row
  rw [if_pos hk]
  constructor
  · rw [List.map_map]
    have hfun :
        ((fun t : RowFun => t c) ∘
          (fun t => if row_conflicts pk t r then applyValues (insert_update_cols pk) r t else t)) =
          fun t : RowFun => t c := by
      funext t
      by_cases hconf : row_conflicts pk t r = true
      · simp [Function.comp, hconf, applyValues, insert_update_cols, hc]
      · simp [Function.comp, hconf]
    rw [hfun]
  · simp

/-- Witness for C1 (amended): a second load of key 1 with `name = "B"` on a
table whose key-1 row has `name = "A"` leaves `name = "A"` and the table size
at one. -/
theorem C1_amended_first_load_wins_witness :
    ((upsert_row ["id"] (insert_update_cols ["id"])
        [row_of [("id", Value.int 1), ("name", Value.str "A")]]
        (row_of [("id", Value.int 1), ("name", Value.str "B")])).map (fun t => t "name") =
      [row_of [("id", Value.int 1), ("name", Value.str "A")]].map (fun t => t "name"))
    ∧ (upsert_row ["id"] (insert_update_cols ["id"])
        [row_of [("id", Value.int 1), ("name", Value.str "A")]]
        (row_of [("id", Value.int 1), ("name", Value.str "B")])).length =
      [row_of [("id", Value.int 1), ("name", Value.str "A")]].length :=
  C1_amended_first_load_wins ["id"] _ _ "name" (by decide) (by decide)

/-- Claim C4: on a key conflict the differential upsert refreshes exactly the
`update_columns` allow-list plus `updated_at` with the incoming row's values;
any column outside that set — in particular `created_at` — keeps the existing
row's value, and no row is added for an existing key. -/
theorem C4_delta_upsert_frame (update_columns pk : List String) (table : List RowFun)
    (r : RowFun) (c d : String)
    (hk : table.any (fun t => row_conflicts pk t r) = true)
    (hc1 : c ∉ update_columns) (hc2 : c ≠ "updated_at")
    (hd : d ∈ update_columns) :
    ((upsert_row pk (delta_update_cols update_columns) table r).map (fun t => t c) =
      table.map (fun t => t c))
    ∧ ((upsert_row pk (delta_update_cols update_columns) table r).map (fun t => t d) =
      table.map (fun t => if row_conflicts pk t r then r d else t d))
    ∧ ((upsert_row pk (delta_update_cols update_columns) table r).map
        (fun t => t "updated_at") =
      table.map (fun t =>
        if row_conflicts pk t r then r "updated_at" else t "updated_at"))
    ∧ (upsert_row pk (delta_update_cols update_columns) table r).length = table.length := by
  have hmem_c : c ∉ delta_update_cols update_columns := by
    intro hmem
    rcases List.mem_append.mp hmem with hmc | hmc
    · exact hc1 hmc
    · exact hc2 (by simpa using hmc)
  have hmem_d : d ∈ delta_update_cols update_columns := List.mem_append.mpr (Or.inl hd)
  have hmem_u : "updated_at" ∈ delta_update_cols update_columns :=
    List.mem_append.mpr (Or.inr (by simp))
  unfold upsert_row
  rw [if_pos hk]
  refine ⟨?_, ?_, ?_, by simp⟩
  · rw [List.map_map]
    have hfun :
        ((fun t : RowFun => t c) ∘
          (fun t => if row_conflicts pk t r then
            applyValues (delta_update_cols update_columns) r t else t)) =
          fun t : RowFun => t c := by
      funext t
      by_cases hconf : row_conflicts pk t r = true
      · simp [Function.comp, hconf, applyValues, hmem_c]
      · simp [Function.comp, hconf]
    rw [hfun]
  · rw [List.map_map]
    have hfun :
        ((fun t : RowFun => t d) ∘
          (fun t => if row_conflicts pk t r then
            applyValues (delta_update_cols update_columns) r t else t)) =
          fun t : RowFun => if row_conflicts pk t r then r d else t d := by
      funext t
      by_cases hconf : row_conflicts pk t r = true
      · simp [Function.comp, hconf, applyValues, hmem_d]
      · simp [Function.comp, hconf]
    rw [hfun]
  · rw [List.map_map]
    have hfun :
        ((fun t : RowFun => t "updated_at") ∘
          (fun t => if row_conflicts pk t r then
            applyValues (delta_update_cols update_columns) r t else t)) =
          fun t : RowFun =>
            if row_conflicts pk t r then r "updated_at" else t "updated_at" := by
      funext t
      by_cases hconf : row_conflicts pk t r = true
      · simp [Function.comp, hconf, applyValues, hmem_u]
      · simp [Function.comp, hconf]
    rw [hfun]

/-- Witness for C4 at a concrete conflict: with allow-list `["salary"]`, the
existing row's `created_at` survives while `salary` and `updated_at` take the
incoming values, and the table stays at one row. -/
theorem C4_delta_upsert_frame_witness :
    ((upsert_row ["id"] (delta_update_cols ["salary"])
        [row_of [("id", Value.int 1), ("salary", Value.int 100),
          ("created_at", Value.vdatetime 2024 1 1 0 0 0),
          ("updated_at", Value.vdatetime 2024 1 1 0 0 0)]]
        (row_of [("id", Value.int 1), ("salary", Value.int 200),
          ("created_at", Value.vdatetime 2025 6 1 0 0 0),
          ("updated_at", Value.vdatetime 2025 6 1 0 0 0)])).map
        (fun t => t "created_at") =
      [row_of [("id", Value.int 1), ("salary", Value.int 100),
        ("created_at", Value.vdatetime 2024 1 1 0 0 0),
        ("updated_at", Value.vdatetime 2024 1 1 0 0 0)]].map (fun t => t "created_at"))
    ∧ ((upsert_row ["id"] (delta_update_cols ["salary"])
        [row_of [("id", Value.int 1), ("salary", Value.int 100),
          ("created_at", Value.vdatetime 2024 1 1 0 0 0),
          ("updated_at", Value.vdatetime 2024 1 1 0 0 0)]]
        (row_of [("id", Value.int 1), ("salary", Value.int 200),
          ("created_at", Value.vdatetime 2025 6 1 0 0 0),
          ("updated_at", Value.vdatetime 2025 6 1 0 0 0)])).map (fun t => t "salary") =
      [row_of [("id", Value.int 1), ("salary", Value.int 100),
        ("created_at", Value.vdatetime 2024 1 1 0 0 0),
        ("updated_at", Value.vdatetime 2024 1 1 0 0 0)]].map
        (fun t => if row_conflicts ["id"] t
            (row_of [("id", Value.int 1), ("salary", Value.int 200),
              ("created_at", Value.vdatetime 2025 6 1 0 0 0),
              ("updated_at", Value.vdatetime 2025 6 1 0 0 0)])
          then (row_of [("id", Value.int 1), ("salary", Value.int 200),
              ("created_at", Value.vdatetime 2025 6 1 0 0 0),
              ("updated_at", Value.vdatetime 2025 6 1 0 0 0)]) "salary"
          else t "salary"))
    ∧ ((upsert_row ["id"] (delta_update_cols ["salary"])
        [row_of [("id", Value.int 1), ("salary", Value.int 100),
          ("created_at", Value.vdatetime 2024 1 1 0 0 0),
          ("updated_at", Value.vdatetime 2024 1 1 0 0 0)]]
        (row_of [("id", Value.int 1), ("salary", Value.int 200),
          ("created_at", Value.vdatetime 2025 6 1 0 0 0),
          ("updated_at", Value.vdatetime 2025 6 1 0 0 0)])).map
        (fun t => t "updated_at") =
      [row_of [("id", Value.int 1), ("salary", Value.int 100),
        ("created_at", Value.vdatetime 2024 1 1 0 0 0),
        ("updated_at", Value.vdatetime 2024 1 1 0 0 0)]].map
        (fun t => if row_conflicts ["id"] t
            (row_of [("id", Value.int 1), ("salary", Value.int 200),
              ("created_at", Value.vdatetime 2025 6 1 0 0 0),
              ("updated_at", Value.vdatetime 2025 6 1 0 0 0)])
          then (row_of [("id", Value.int 1), ("salary", Value.int 200),
              ("created_at", Value.vdatetime 2025 6 1 0 0 0),
              ("updated_at", Value.vdatetime 2025 6 1 0 0 0)]) "updated_at"
          else t "updated_at"))
    ∧ (upsert_row ["id"] (delta_update_cols ["salary"])
        [row_of [("id", Value.int 1), ("salary", Value.int 100),
          ("created_at", Value.vdatetime 2024 1 1 0 0 0),
          ("updated_at", Value.vdatetime 2024 1 1 0 0 0)]]
        (row_of [("id", Value.int 1), ("salary", Value.int 200),
          ("created_at", Value.vdatetime 2025 6 1 0 0 0),
          ("updated_at", Value.vdatetime 2025 6 1 0 0 0)])).length = 1 :=
  C4_delta_upsert_frame ["salary"] ["id"] _ _ "created_at" "salary"
    (by decide) (by decide) (by decide) (by decide)

/-- An `Except` value that is not ok is an error. -/
theorem except_error_of_isOk_false {ε α : Type} (x : Except ε α) (h : x.isOk = false) :
    ∃ e, x = Except.error e := by
  cases x with
  | error e => exact ⟨e, rfl⟩
  | ok v => simp [Except.isOk, Except.toBool] at h

/-- If some listed column raises during type resolution, the whole
column-definition pass raises (the Python `for` loop propagates the first
`ValueError`). -/
theorem map_or_error_isOk_false_of_mem (f : String × String → Except String String)
    (l : List (String × String)) (a : String × String) (ha : a ∈ l)
    (hf : (f a).isOk = false) : (map_or_error f l).isOk = false := by
  induction l with
  | nil => cases ha
  | cons c rest ih =>
    rcases List.mem_cons.mp ha with hh | hh
    · subst hh
      unfold map_or_error
      obtain ⟨e, he⟩ := except_error_of_isOk_false _ hf
      rw [he]
      rfl
    · unfold map_or_error
      cases hfc : f c with
      | error e => rfl
      | ok v =>
        obtain ⟨e, he⟩ := except_error_of_isOk_false _ (ih hh)
        rw [he]
        rfl

/-- A string starting with `VARCHAR(` never starts with `TEXT`. -/
theorem varchar_not_TEXT (s : String) : py_startswith ("VARCHAR(" ++ s) "TEXT" = false := by
  obtain ⟨l⟩ := s
  rfl

/-- Claim C7: an override naming an unrecognized target type raises
`ValueError` while the column definitions are being built — before any DDL
outcome is even consulted — whereas with a well-formed configuration a
failure of the `CREATE TABLE` execution itself is logged and swallowed, so
the call still returns normally. -/
theorem C7_override_error_vs_ddl_error
    (exec_result exec_result2 : Except String Unit)
    (dest dest2 : String) (cols cols2 : List (String × String))
    (pk pk2 uks uks2 : List String) (exc : Exceptions) (exc2 : Option Exceptions)
    (cn ct : String) (cfg : ExceptionCfg)
    (hmem : (cn, ct) ∈ cols)
    (hlook : dict_get exc cn = some cfg)
    (hbad : recognized_override cfg = false)
    (hgood : (create_query dest2 cols2 pk2 uks2 exc2).isOk = true) :
    (create_mysql_table_from_odbc_metadata exec_result dest cols pk uks (some exc)).isOk =
      false
    ∧ (create_mysql_table_from_odbc_metadata exec_result2 dest2 cols2 pk2 uks2 exc2).isOk =
      true := by
  constructor
  · have hb := hbad
    unfold recognized_override at hb
    rw [Bool.or_eq_false_iff] at hb
    obtain ⟨hb1, hb2⟩ := hb
    have hb1' : type_mapping (py_upper (cfg.type.getD "")) = Option.none := by
      cases hmm : type_mapping (py_upper (cfg.type.getD "")) with
      | none => rfl
      | some v => rw [hmm] at hb1; simp at hb1
    have hb2' : ¬ (py_upper (cfg.type.getD "") = "VARCHAR") := by
      intro hvc
      rw [hvc] at hb2
      simp at hb2
    have hbase : (resolved_base_type (some exc) cn ct).isOk = false := by
      unfold resolved_base_type
      rw [Option.some_bind, hlook]
      dsimp only
      rw [hb1']
      dsimp only
      rw [if_neg hb2']
      rfl
    have hcol : (resolve_col_type (some exc) pk uks cn ct).isOk = false := by
      obtain ⟨e, he⟩ := except_error_of_isOk_false _ hbase
      unfold resolve_col_type
      rw [he]
      rfl
    have hf : ((fun col : String × String =>
        match resolve_col_type (some exc) pk uks col.1 col.2 with
        | Except.error e => Except.error e
        | Except.ok ct2 => Except.ok ("`" ++ col.1 ++ "` " ++ ct2)) (cn, ct)).isOk =
        false := by
      obtain ⟨e, he⟩ := except_error_of_isOk_false _ hcol
      dsimp only
      rw [he]
      rfl
    have hmoe := map_or_error_isOk_false_of_mem
      (fun col : String × String =>
        match resolve_col_type (some exc) pk uks col.1 col.2 with
        | Except.error e => Except.error e
        | Except.ok ct2 => Except.ok ("`" ++ col.1 ++ "` " ++ ct2))
      cols (cn, ct) hmem hf
    obtain ⟨e, he⟩ := except_error_of_isOk_false _ hmoe
    have hcd : column_definitions cols pk uks (some exc) = Except.error e := by
      unfold column_definitions
      rw [he]
    have hq : create_query dest cols pk uks (some exc) = Except.error e := by
      unfold create_query
      rw [hcd]
    unfold create_mysql_table_from_odbc_metadata
    rw [hq]
    rfl
  · cases hq : create_query dest2 cols2 pk2 uks2 exc2 with
    | error e => rw [hq] at hgood; simp [Except.isOk, Except.toBool] at hgood
    | ok q =>
      unfold create_mysql_table_from_odbc_metadata
      rw [hq]
      cases exec_result2 <;> rfl

/-- Witness for C7: an override type `"NVARCHAR"` makes table creation raise
even when the DDL layer would have succeeded, while a well-formed table whose
`CREATE TABLE` execution fails (e.g. table already exists) returns
normally. -/
theorem C7_override_error_vs_ddl_error_witness :
    (create_mysql_table_from_odbc_metadata (Except.ok ()) "employees"
        [("badge", "STRING")] [] [] (some [("badge", { type := some "NVARCHAR" })])).isOk =
      false
    ∧ (create_mysql_table_from_odbc_metadata (Except.error "Table already exists")
        "employees2" [("id", "INT")] ["id"] [] (some [])).isOk = true :=
  C7_override_error_vs_ddl_error (Except.ok ()) (Except.error "Table already exists")
    "employees" "employees2" [("badge", "STRING")] [("id", "INT")] [] ["id"] [] []
    [("badge", { type := some "NVARCHAR" })] (some []) "badge" "STRING"
    { type := some "NVARCHAR" } (by decide) (by decide) (by decide) (by decide)

/-- Claim C8 (amended): whenever an override mapping is actually supplied
(possibly empty), a primary/unique-key column whose resolved base type is
unbounded `TEXT` is force-substituted with `VARCHAR(key_length)` — the
`key_length` override when present, 100 otherwise — so such a key column
never resolves to unbounded text; only the `exceptions=None` call aborts with
an error instead of substituting. -/
theorem C8_key_columns_bounded (m : Exceptions) (pk uks : List String) (cn ot bt : String)
    (hkey : cn ∈ pk ∨ cn ∈ uks)
    (hbase : resolved_base_type (some m) cn ot = Except.ok bt)
    (htext : py_startswith bt "TEXT" = true) :
    resolve_col_type (some m) pk uks cn ot =
      Except.ok ("VARCHAR(" ++
        toString (((dict_get m cn).bind ExceptionCfg.key_length).getD 100) ++ ")")
    ∧ py_startswith ("VARCHAR(" ++
        toString (((dict_get m cn).bind ExceptionCfg.key_length).getD 100) ++ ")")
        "TEXT" = false := by
  constructor
  · unfold resolve_col_type
    rw [hbase]
    dsimp only
    rw [if_pos hkey, if_pos htext]
  · exact varchar_not_TEXT _

/-- Witness for C8 (amended): key column `id` of source type `TEXT` with a
`key_length` override of 50 resolves to `VARCHAR(50)`, a bounded type. -/
theorem C8_key_columns_bounded_witness :
    resolve_col_type (some [("id", { type := some "TEXT", key_length := some 50 })])
        ["id"] [] "id" "TEXT" =
      Except.ok ("VARCHAR(" ++
        toString (((dict_get [("id", { type := some "TEXT", key_length := some 50 })] "id").bind
          ExceptionCfg.key_length).getD 100) ++ ")")
    ∧ py_startswith ("VARCHAR(" ++
        toString (((dict_get [("id", { type := some "TEXT", key_length := some 50 })] "id").bind
          ExceptionCfg.key_length).getD 100) ++ ")") "TEXT" = false :=
  C8_key_columns_bounded [("id", { type := some "TEXT", key_length := some 50 })]
    ["id"] [] "id" "TEXT" "TEXT" (Or.inl (by simp)) rfl (by decide)

/-- Claim C9: the differential query's `WHERE` clause contains
`sort_column IS NOT NULL` in both its forms (with and without the lookback
window), so a source row whose sort-column value is null is never returned by
the query and hence never reaches normalization. -/
theorem C9_null_sort_rows_excluded (since : Option Nat)
    (sort_column look_back_date : String) (src : List SourceRow) (r : SourceRow)
    (h : r.sortValue = Value.none) :
    r ∉ differential_source_rows (date_filter since sort_column look_back_date) src
    ∧ (differential_source_rows (date_filter since sort_column look_back_date) src).all
        (fun q => !(sql_value_is_null q.sortValue)) = true := by
  have hall : ∀ f : SortFilter,
      (differential_source_rows f src).all (fun q => !(sql_value_is_null q.sortValue)) =
        true := by
    intro f
    rw [List.all_eq_true]
    intro q hq
    have hsel := (List.mem_filter.mp hq).2
    cases f with
    | notNull =>
      simp only [sql_selects] at hsel
      simpa using hsel
    | notNullAndAfter d2 =>
      simp only [sql_selects, Bool.and_eq_true] at hsel
      simpa using hsel.1
  refine ⟨?_, hall _⟩
  intro hmem
  have h2 := List.all_eq_true.mp (hall _) r hmem
  rw [h] at h2
  simp [sql_value_is_null] at h2

/-- Witness for C9: with a lookback window requested, a row with a null
`hire_date` is absent from the differential query result while a dated row
survives the filter. -/
theorem C9_null_sort_rows_excluded_witness :
    (⟨Value.none, [Value.int 7, Value.none]⟩ : SourceRow) ∉
      differential_source_rows (date_filter (some 30) "hire_date" "2025-09-12")
        [⟨Value.none, [Value.int 7, Value.none]⟩,
         ⟨Value.vdate 2025 10 1, [Value.int 8, Value.vdate 2025 10 1]⟩]
    ∧ (differential_source_rows (date_filter (some 30) "hire_date" "2025-09-12")
        [⟨Value.none, [Value.int 7, Value.none]⟩,
         ⟨Value.vdate 2025 10 1, [Value.int 8, Value.vdate 2025 10 1]⟩]).all
        (fun q => !(sql_value_is_null q.sortValue)) = true :=
  C9_null_sort_rows_excluded (some 30) "hire_date" "2025-09-12" _ _ (by decide)

end Db

